import Mathlib

/-
Verification of the HTML-extraction and HTML-to-PNG rendering pipeline of the
WechatDaily repository (src/app.py, src/app/utils/helpers.py,
src/html_to_image.py).

Modelling conventions:
* Python strings are modelled as `List Char` (or Lean `String` for plain
  path values that are only concatenated and compared).
* File-system and subprocess effects are modelled by explicit environment
  records giving the outcome of each external action, and the functions
  return an event trace next to their result.
* Case-insensitive regex matching is modelled by ASCII lower-casing of both
  pattern and subject, which agrees with Python re.IGNORECASE on the
  ASCII-only patterns that occur in the source.
-/

/-- Lower-case a character sequence. Models the ASCII case folding performed
by re.IGNORECASE for the ASCII-only patterns of extract_html_from_response
(src/app.py:126,133,140 and src/app/utils/helpers.py:24,31,38). -/
def lowerL (l : List Char) : List Char := l.map Char.toLower

/-- First index at which `pat` occurs as a contiguous block of `s`
(`none` when there is no occurrence). This is the position that re.search
reports for a plain literal pattern. -/
def findSub (pat : List Char) : List Char → Option Nat
  | [] => if pat <+: ([] : List Char) then some 0 else none
  | c :: rest =>
    if pat <+: c :: rest then some 0 else (findSub pat rest).map (· + 1)

/-- Case-insensitive first occurrence of `pat` in `s`. -/
def findCI (pat s : List Char) : Option Nat := findSub (lowerL pat) (lowerL s)

/-- Model of re.search with the pattern op [\s\S]*? cl under IGNORECASE, for the
three concrete pattern pairs used by extract_html_from_response, returning
(start index, match length). For these patterns the leftmost-then-lazy
semantics of re.search coincides with: take the first (case-insensitive)
occurrence of the opening literal `op`, then the first occurrence of the
closing literal `cl` at or after its end. This holds because `cl` starts
with a character that cannot occur in the interior of `op` (both facts are
specific to the doctype/html/body literals below), and because an
occurrence of `cl` after a later occurrence of `op` is also an occurrence
after the first one. -/
def searchLazyCI (op cl s : List Char) : Option (Nat × Nat) :=
  match findCI op s with
  | none => none
  | some i =>
    match findCI cl (s.drop (i + op.length)) with
    | none => none
    | some k => some (i, op.length + k + cl.length)

/-- Opening literal of the tier-1 pattern at src/app.py:126. -/
def docPat : List Char := "<!DOCTYPE html>".toList

/-- Opening literal of the tier-2 pattern at src/app.py:133. -/
def htmlOpenPat : List Char := "<html".toList

/-- Closing literal shared by the tier-1 and tier-2 patterns. -/
def htmlClosePat : List Char := "</html>".toList

/-- Opening literal of the tier-3 pattern at src/app.py:140. -/
def bodyOpenPat : List Char := "<body".toList

/-- Closing literal of the tier-3 pattern. -/
def bodyClosePat : List Char := "</body>".toList

/-- Doctype line prepended by tier 2 (src/app.py:137). -/
def doctypeLine : List Char := "<!DOCTYPE html>\n".toList

/-- Document shell put before the body fragment by tier 3
(src/app.py:144-150): doctype, html and head with UTF-8 charset meta tag
and the fixed title of the report page. -/
def bodyShellPre : List Char :=
  ("<!DOCTYPE html>\n<html>\n<head>\n    <meta charset=\"UTF-8\">\n" ++
   "    <title>群聊日报</title>\n</head>\n").toList

/-- Document shell put after the body fragment by tier 3 (src/app.py:150-151). -/
def bodyShellPost : List Char := "\n</html>".toList

/-- The substring of `s` described by a (start, length) match. -/
def matchedSub (s : List Char) (ik : Nat × Nat) : List Char :=
  (s.drop ik.1).take ik.2

/-- Model of extract_html_from_response (src/app.py:114-153, identical copy
at src/app/utils/helpers.py:12-50): three regex tiers in strict priority
order; tier 1 returns the match verbatim, tier 2 prepends a doctype line,
tier 3 wraps the body fragment in a fixed document shell; otherwise `none`. -/
def extract_html_from_response (s : List Char) : Option (List Char) :=
  match searchLazyCI docPat htmlClosePat s with
  | some ik => some (matchedSub s ik)
  | none =>
    match searchLazyCI htmlOpenPat htmlClosePat s with
    | some ik => some (doctypeLine ++ matchedSub s ik)
    | none =>
      match searchLazyCI bodyOpenPat bodyClosePat s with
      | some ik => some (bodyShellPre ++ matchedSub s ik ++ bodyShellPost)
      | none => none

/-- Outcome of one external rendering attempt (a subprocess run or the
Playwright helper). The model assumes an attempt that raises leaves no
destination file behind, so the file-existence check that follows each
non-raising run in the source is `ranFile` here. -/
inductive Outcome
  | raisedCaught
  | raisedOther
  | ranNoFile
  | ranFile
  deriving DecidableEq, Fintype

/-- Result of find_browser_path (src/app.py:155-184): which vendor entry of
the fixed path table (chrome, edge, firefox, in that order) exists, if any. -/
inductive FoundBrowser
  | chrome
  | edge
  | firefox
  | notFound
  deriving DecidableEq, Fintype

/-- Environment for one call of convert_html_to_png: the outcome of every
external action it may perform. `raisedCaught` stands for an exception of a
class caught by the per-backend handlers of the source (subprocess errors
and FileNotFoundError); `raisedOther` for an exception of any other class,
which only the outer handler at src/app.py:379-382 catches. -/
structure RenderEnv where
  playwright : Outcome
  wkhtml : Outcome
  instChrome : Outcome
  instEdge1 : Outcome
  instEdge2 : Outcome
  pathChrome : Outcome
  pathMsedge : Outcome
  found : FoundBrowser
  deriving DecidableEq

instance : Fintype RenderEnv :=
  Fintype.ofEquiv
    (Outcome × Outcome × Outcome × Outcome × Outcome × Outcome × Outcome ×
      FoundBrowser)
    { toFun := fun x =>
        ⟨x.1, x.2.1, x.2.2.1, x.2.2.2.1, x.2.2.2.2.1, x.2.2.2.2.2.1,
         x.2.2.2.2.2.2.1, x.2.2.2.2.2.2.2⟩
      invFun := fun e =>
        (e.playwright, e.wkhtml, e.instChrome, e.instEdge1, e.instEdge2,
         e.pathChrome, e.pathMsedge, e.found)
      left_inv := fun _ => rfl
      right_inv := fun _ => rfl }

/-- One rendering attempt, labelled with the vendor and the screenshot flag
form it uses (`ShotEq` is the single-token `--screenshot=path` form,
`ShotTwoTok` the two-token `--screenshot path` form). -/
inductive Attempt
  | playwrightShot
  | wkhtmltoimageRun
  | instChromeShotEq
  | instEdgeShotTwoTok
  | instEdgeShotEq
  | pathChromeShotEq
  | pathMsedgeShotEq
  | openDefaultBrowser
  deriving DecidableEq, Fintype

/-- Fixed path table of find_browser_path (src/app.py:163-176). -/
def browser_paths : List (String × List String) :=
  [("chrome",
    ["C:\\Program Files\\Google\\Chrome\\Application\\chrome.exe",
     "C:\\Program Files (x86)\\Google\\Chrome\\Application\\chrome.exe"]),
   ("edge",
    ["C:\\Program Files (x86)\\Microsoft\\Edge\\Application\\msedge.exe",
     "C:\\Program Files\\Microsoft\\Edge\\Application\\msedge.exe"]),
   ("firefox",
    ["C:\\Program Files\\Mozilla Firefox\\firefox.exe",
     "C:\\Program Files (x86)\\Mozilla Firefox\\firefox.exe"])]

/-- find_browser_path (src/app.py:155-184): scan the fixed table in order
and return the first (vendor, path) whose path exists, given an existence
oracle for the six candidate paths. -/
def find_browser_path (pathExists : String → Bool) : Option (String × String) :=
  (browser_paths.flatMap fun bp => bp.2.map fun p => (bp.1, p)).find?
    fun vp => pathExists vp.2

/-- wkhtmltoimage command line (src/app.py:258-263). -/
def wkhtmltoimage_cmd (htmlPath pngPath : String) : List String :=
  ["wkhtmltoimage", "--quality", "100", htmlPath, pngPath]

/-- Discovered-Chrome command line (src/app.py:277-281). -/
def chrome_cmd (browserPath pngPath fileUrl : String) : List String :=
  [browserPath, "--headless", "--disable-gpu", "--screenshot=" ++ pngPath,
   fileUrl]

/-- Discovered-Edge first command line, two-token screenshot flag
(src/app.py:294-298). -/
def edge_cmd (browserPath pngPath fileUrl : String) : List String :=
  [browserPath, "--headless", "--disable-gpu", "--screenshot", pngPath,
   fileUrl]

/-- Discovered-Edge retry command line, single-token screenshot flag
(src/app.py:312-316). -/
def edge_cmd2 (browserPath pngPath fileUrl : String) : List String :=
  [browserPath, "--headless", "--disable-gpu", "--screenshot=" ++ pngPath,
   fileUrl]

/-- PATH-invoked chrome command line (src/app.py:332-336). -/
def path_chrome_cmd (pngPath fileUrl : String) : List String :=
  ["chrome", "--headless", "--disable-gpu", "--screenshot=" ++ pngPath,
   fileUrl]

/-- PATH-invoked msedge command line (src/app.py:348-352). Note it uses the
same single-token screenshot form as chrome, not the two-token Edge form. -/
def path_msedge_cmd (pngPath fileUrl : String) : List String :=
  ["msedge", "--headless", "--disable-gpu", "--screenshot=" ++ pngPath,
   fileUrl]

/-- PATH-command stage of convert_html_to_png (src/app.py:329-360): try the
`chrome` command; the `msedge` command is inside the except-handler of the
chrome attempt, so it runs only when chrome raised a caught exception; a
non-raising chrome run without output falls through to the webbrowser
fallback (src/app.py:362-378), which always reports failure. An uncaught
exception class reaches the outer handler (src/app.py:379-382). -/
def pathStage (pc pm : Outcome) (t : List Attempt) : Bool × List Attempt :=
  match pc with
  | .ranFile => (true, t ++ [.pathChromeShotEq])
  | .ranNoFile => (false, t ++ [.pathChromeShotEq, .openDefaultBrowser])
  | .raisedOther => (false, t ++ [.pathChromeShotEq])
  | .raisedCaught =>
    match pm with
    | .ranFile => (true, t ++ [.pathChromeShotEq, .pathMsedgeShotEq])
    | .ranNoFile =>
      (false, t ++ [.pathChromeShotEq, .pathMsedgeShotEq, .openDefaultBrowser])
    | .raisedOther => (false, t ++ [.pathChromeShotEq, .pathMsedgeShotEq])
    | .raisedCaught =>
      (false, t ++ [.pathChromeShotEq, .pathMsedgeShotEq, .openDefaultBrowser])

/-- Discovered-browser stage of convert_html_to_png (src/app.py:272-327):
chrome is invoked once with the `--screenshot=path` form (no retry); edge is
invoked with the two-token form and retried with the single-token form only
when the first run did not raise and produced no file; a discovered firefox,
or no discovered browser, skips this stage entirely. -/
def instStage (fd : FoundBrowser) (ic ie1 ie2 pc pm : Outcome)
    (t : List Attempt) : Bool × List Attempt :=
  match fd with
  | .chrome =>
    match ic with
    | .ranFile => (true, t ++ [.instChromeShotEq])
    | .ranNoFile => pathStage pc pm (t ++ [.instChromeShotEq])
    | .raisedCaught => pathStage pc pm (t ++ [.instChromeShotEq])
    | .raisedOther => (false, t ++ [.instChromeShotEq])
  | .edge =>
    match ie1 with
    | .ranFile => (true, t ++ [.instEdgeShotTwoTok])
    | .raisedCaught => pathStage pc pm (t ++ [.instEdgeShotTwoTok])
    | .raisedOther => (false, t ++ [.instEdgeShotTwoTok])
    | .ranNoFile =>
      match ie2 with
      | .ranFile => (true, t ++ [.instEdgeShotTwoTok, .instEdgeShotEq])
      | .ranNoFile =>
        pathStage pc pm (t ++ [.instEdgeShotTwoTok, .instEdgeShotEq])
      | .raisedCaught =>
        pathStage pc pm (t ++ [.instEdgeShotTwoTok, .instEdgeShotEq])
      | .raisedOther => (false, t ++ [.instEdgeShotTwoTok, .instEdgeShotEq])
  | .firefox => pathStage pc pm t
  | .notFound => pathStage pc pm t

/-- convert_html_to_png (src/app.py:235-382): Playwright first
(html_to_png_with_playwright catches every exception itself and returns a
boolean, src/app.py:186-233), then wkhtmltoimage, then the discovered
browser, then PATH commands, then the webbrowser fallback that always
returns failure. Returns the success flag and the ordered attempt trace. -/
def convert_html_to_png (env : RenderEnv) : Bool × List Attempt :=
  if env.playwright = .ranFile then (true, [.playwrightShot])
  else
    match env.wkhtml with
    | .ranFile => (true, [.playwrightShot, .wkhtmltoimageRun])
    | .raisedOther => (false, [.playwrightShot, .wkhtmltoimageRun])
    | _ =>
      instStage env.found env.instChrome env.instEdge1 env.instEdge2
        env.pathChrome env.pathMsedge [.playwrightShot, .wkhtmltoimageRun]

/-- One step of the backend order exactly as claim C1 words it: make the
attempt, succeed as soon as the destination file exists after it, otherwise
continue with the rest of the fixed order. -/
def claimStep (o : Outcome) (a : Attempt) (t : List Attempt)
    (k : List Attempt → Bool × List Attempt) : Bool × List Attempt :=
  if o = .ranFile then (true, t ++ [a]) else k (t ++ [a])

/-- The renderer backend selector as claim C1 describes it: the fixed order
playwright, wkhtmltoimage, discovered browser (chrome with the single-token
form, edge with the two-token form then the single-token retry), PATH
chrome, PATH msedge, then opening the default browser and reporting
failure; each attempt succeeds exactly when the destination file exists
after it, and a failed attempt never stops the sequence. Where the claim is
ambiguous it is read charitably towards the source: the retry is granted
only to edge, a discovered firefox or no discovered browser skips stage 3,
and the PATH commands use the single-token form. -/
def claimC1Render (env : RenderEnv) : Bool × List Attempt :=
  claimStep env.playwright .playwrightShot [] fun t1 =>
  claimStep env.wkhtml .wkhtmltoimageRun t1 fun t2 =>
  let rest := fun t3 =>
    claimStep env.pathChrome .pathChromeShotEq t3 fun t4 =>
    claimStep env.pathMsedge .pathMsedgeShotEq t4 fun t5 =>
    (false, t5 ++ [.openDefaultBrowser])
  match env.found with
  | .chrome => claimStep env.instChrome .instChromeShotEq t2 rest
  | .edge =>
    claimStep env.instEdge1 .instEdgeShotTwoTok t2 fun t3 =>
    claimStep env.instEdge2 .instEdgeShotEq t3 rest
  | _ => rest t2

/-- One step of the backend order as amended by the claim C1 correction: an
attempt after which the destination file exists is a success, an uncaught
exception class ends the whole cascade with failure, anything else
continues. -/
def amendedStep (o : Outcome) (a : Attempt) (t : List Attempt)
    (k : List Attempt → Bool × List Attempt) : Bool × List Attempt :=
  match o with
  | .ranFile => (true, t ++ [a])
  | .raisedOther => (false, t ++ [a])
  | _ => k (t ++ [a])

/-- Stage 4 and 5 of the amended claim C1: PATH chrome; PATH msedge only
when the chrome command raised a caught exception class; then the
webbrowser fallback reporting failure; an uncaught exception class ends
the cascade with failure at once. -/
def amendedPath (pc pm : Outcome) (t : List Attempt) : Bool × List Attempt :=
  match pc with
  | .ranFile => (true, t ++ [.pathChromeShotEq])
  | .raisedOther => (false, t ++ [.pathChromeShotEq])
  | .ranNoFile => (false, t ++ [.pathChromeShotEq, .openDefaultBrowser])
  | .raisedCaught =>
    amendedStep pm .pathMsedgeShotEq (t ++ [.pathChromeShotEq])
      fun t4 => (false, t4 ++ [.openDefaultBrowser])

/-- Stage 3 of the amended claim C1: a discovered chrome runs once with the
single-token form and gets no retry; a discovered edge runs with the
two-token form and is retried with the single-token form only after a
non-raising run without output; a discovered firefox, or no discovered
browser, skips the stage. -/
def amendedInst (fd : FoundBrowser) (ic ie1 ie2 pc pm : Outcome)
    (t : List Attempt) : Bool × List Attempt :=
  match fd with
  | .chrome => amendedStep ic .instChromeShotEq t (amendedPath pc pm)
  | .edge =>
    match ie1 with
    | .ranFile => (true, t ++ [.instEdgeShotTwoTok])
    | .raisedOther => (false, t ++ [.instEdgeShotTwoTok])
    | .raisedCaught => amendedPath pc pm (t ++ [.instEdgeShotTwoTok])
    | .ranNoFile =>
      amendedStep ie2 .instEdgeShotEq (t ++ [.instEdgeShotTwoTok])
        (amendedPath pc pm)
  | _ => amendedPath pc pm t

/-- The renderer backend selector as the amended claim C1 describes it: the
same fixed order, but chrome gets no retry, the edge retry runs only after
a non-raising first edge run, PATH msedge runs only when the PATH chrome
command raised a caught exception class, an uncaught exception class aborts
the cascade (skipping the webbrowser fallback), and the Playwright stage
swallows every exception. -/
def amendedC1Render (env : RenderEnv) : Bool × List Attempt :=
  claimStep env.playwright .playwrightShot [] fun t1 =>
  amendedStep env.wkhtml .wkhtmltoimageRun t1 fun t2 =>
  amendedInst env.found env.instChrome env.instEdge1 env.instEdge2
    env.pathChrome env.pathMsedge t2

/-- The env outcome governing each attempt; the webbrowser fallback never
creates the PNG. -/
def attemptOutcome (env : RenderEnv) : Attempt → Outcome
  | .playwrightShot => env.playwright
  | .wkhtmltoimageRun => env.wkhtml
  | .instChromeShotEq => env.instChrome
  | .instEdgeShotTwoTok => env.instEdge1
  | .instEdgeShotEq => env.instEdge2
  | .pathChromeShotEq => env.pathChrome
  | .pathMsedgeShotEq => env.pathMsedge
  | .openDefaultBrowser => .ranNoFile

/-- Whether some attempt of the trace left the destination file behind,
given the outcome of each attempt. -/
def producedIn (f : Attempt → Outcome) (t : List Attempt) : Bool :=
  t.any fun a => decide (f a = .ranFile)

/-- Whether some attempt of the trace left the destination file behind. -/
def producedFile (env : RenderEnv) (t : List Attempt) : Bool :=
  producedIn (attemptOutcome env) t

/-- No subprocess attempt raises an exception class outside the ones the
per-backend handlers of the source catch. (The Playwright stage is exempt:
html_to_png_with_playwright catches every exception itself.) -/
def noUncaught (env : RenderEnv) : Prop :=
  env.wkhtml ≠ .raisedOther ∧ env.instChrome ≠ .raisedOther ∧
  env.instEdge1 ≠ .raisedOther ∧ env.instEdge2 ≠ .raisedOther ∧
  env.pathChrome ≠ .raisedOther ∧ env.pathMsedge ≠ .raisedOther

instance (env : RenderEnv) : Decidable (noUncaught env) := by
  unfold noUncaught; infer_instance

/-- Counterexample environment for claim C1: no browser discovered, every
earlier backend unavailable, the PATH chrome command runs without output,
and the PATH msedge command would produce the file. -/
def envC1 : RenderEnv :=
  { playwright := .ranNoFile, wkhtml := .raisedCaught,
    instChrome := .ranNoFile, instEdge1 := .ranNoFile,
    instEdge2 := .ranNoFile, pathChrome := .ranNoFile,
    pathMsedge := .ranFile, found := .notFound }

/-- Counterexample environment for claim C2: the wkhtmltoimage subprocess
raises an exception class the per-backend handler does not catch (for
example PermissionError), while the discovered chrome would have produced
the file. -/
def envC2 : RenderEnv :=
  { playwright := .ranNoFile, wkhtml := .raisedOther,
    instChrome := .ranFile, instEdge1 := .ranFile,
    instEdge2 := .ranFile, pathChrome := .ranFile,
    pathMsedge := .ranFile, found := .chrome }

/-- Environment in which every backend raises a caught exception class. -/
def envAllFail : RenderEnv :=
  { playwright := .ranNoFile, wkhtml := .raisedCaught,
    instChrome := .raisedCaught, instEdge1 := .raisedCaught,
    instEdge2 := .raisedCaught, pathChrome := .raisedCaught,
    pathMsedge := .raisedCaught, found := .notFound }

/-- POSIX model of os.path.abspath for the path strings that only flow
through the converter unchanged. -/
def abspath (cwd p : String) : String :=
  if p.startsWith "/" then p else cwd ++ "/" ++ p

/-- Options of the Playwright converter core with the defaults of
src/html_to_image.py:203-208 and 315-319 (the 1.5 scale factor is the exact
rational three halves). -/
structure RenderOptions where
  viewport_width : Nat := 1200
  viewport_height : Nat := 800
  scale_factor : ℚ := 3 / 2
  timeout : Nat := 60000
  wait_time : Nat := 5000
  full_page : Bool := true
  deriving DecidableEq

/-- How far the navigation block of the converter core gets before an
exception is caught by the try at src/html_to_image.py:253-261 and 366-374
(a failure there is logged and the conversion continues). -/
inductive GotoPhase
  | ok
  | gotoRaised
  | idleRaised
  deriving DecidableEq, Fintype

/-- Environment of one run of the Playwright converter core. `installed` is
whether the playwright import succeeds; `laterRaise` stands for an
exception in any step after the navigation block, which only the outer
handler catches (the model does not track the partial step trace of such a
run beyond the navigation block); `produced` is the outcome of the final
os.path.exists check on the image path. -/
structure PwEnv where
  installed : Bool
  gotoPhase : GotoPhase
  laterRaise : Bool
  produced : Bool
  deriving DecidableEq

instance : Fintype PwEnv :=
  Fintype.ofEquiv (Bool × GotoPhase × Bool × Bool)
    { toFun := fun x => ⟨x.1, x.2.1, x.2.2.1, x.2.2.2⟩
      invFun := fun e => (e.installed, e.gotoPhase, e.laterRaise, e.produced)
      left_inv := fun _ => rfl
      right_inv := fun _ => rfl }

/-- One Playwright API step of the converter core, with the parameters the
source passes to it. -/
inductive PwStep
  | launchChromium (args : List String)
  | newPage (w h : Nat) (scale : ℚ)
  | goto (url : String) (timeoutMs : Nat)
  | waitNetworkIdle (timeoutMs : Nat)
  | waitTimeout (ms : Nat)
  | waitCanvasSelector (timeoutMs : Nat)
  | evalImagesLoadedPromise
  | screenshot (path : String) (fullPage : Bool)
  | closeBrowser
  deriving DecidableEq

/-- HtmlToImageConverter._convert_html_to_image
(src/html_to_image.py:313-424), the blocking Playwright core: import check,
launch with web security disabled, page with viewport and scale factor,
navigation with best-effort domcontentloaded and network-idle waits, fixed
settle wait, bounded canvas wait when the HTML contains a canvas element,
image-load poll script, screenshot (full page per option, background kept),
close, then the existence check that decides the returned pair.
`htmlContent` is the content read back from the HTML file for the canvas
check at src/html_to_image.py:380-382. -/
def convert_html_to_image_sync (env : PwEnv) (cwd : String)
    (htmlContent : List Char) (html_file_path img_path : String)
    (opts : RenderOptions) : (Bool × Option String) × List PwStep :=
  if env.installed = false then ((false, none), [])
  else
    let absHtml := abspath cwd html_file_path
    let absImg := abspath cwd img_path
    let navSteps : List PwStep :=
      match env.gotoPhase with
      | .gotoRaised => [.goto ("file://" ++ absHtml) opts.timeout]
      | _ => [.goto ("file://" ++ absHtml) opts.timeout,
              .waitNetworkIdle opts.timeout]
    let steps0 :=
      [PwStep.launchChromium
         ["--disable-web-security", "--allow-file-access-from-files"],
       PwStep.newPage opts.viewport_width opts.viewport_height
         opts.scale_factor] ++ navSteps
    if env.laterRaise then ((false, none), steps0)
    else
      let canvasSteps : List PwStep :=
        if (findSub "<canvas".toList htmlContent).isSome then
          [.waitCanvasSelector 5000]
        else []
      let steps := steps0 ++ [PwStep.waitTimeout opts.wait_time] ++
        canvasSteps ++
        [PwStep.evalImagesLoadedPromise,
         PwStep.screenshot absImg opts.full_page, PwStep.closeBrowser]
      if env.produced then ((true, some absImg), steps)
      else ((false, none), steps)

/-- HtmlToImageConverter._convert_html_to_image_async
(src/html_to_image.py:201-311), the awaiting variant, transcribed from its
own body: the steps, their parameters and the result construction are those
of the async method. -/
def convert_html_to_image_async (env : PwEnv) (cwd : String)
    (htmlContent : List Char) (html_file_path img_path : String)
    (opts : RenderOptions) : (Bool × Option String) × List PwStep :=
  if env.installed = false then ((false, none), [])
  else
    let absHtml := abspath cwd html_file_path
    let absImg := abspath cwd img_path
    let navSteps : List PwStep :=
      match env.gotoPhase with
      | .gotoRaised => [.goto ("file://" ++ absHtml) opts.timeout]
      | _ => [.goto ("file://" ++ absHtml) opts.timeout,
              .waitNetworkIdle opts.timeout]
    let steps0 :=
      [PwStep.launchChromium
         ["--disable-web-security", "--allow-file-access-from-files"],
       PwStep.newPage opts.viewport_width opts.viewport_height
         opts.scale_factor] ++ navSteps
    if env.laterRaise then ((false, none), steps0)
    else
      let canvasSteps : List PwStep :=
        if (findSub "<canvas".toList htmlContent).isSome then
          [.waitCanvasSelector 5000]
        else []
      let steps := steps0 ++ [PwStep.waitTimeout opts.wait_time] ++
        canvasSteps ++
        [PwStep.evalImagesLoadedPromise,
         PwStep.screenshot absImg opts.full_page, PwStep.closeBrowser]
      if env.produced then ((true, some absImg), steps)
      else ((false, none), steps)

/-- Last index of a character in a character list. -/
def rfindIdx (c : Char) (l : List Char) : Option Nat :=
  match findSub [c] l.reverse with
  | none => none
  | some i => some (l.length - 1 - i)

/-- Stem part of os.path.splitext for slash-separated paths: split at the
last dot of the final segment unless every character between the segment
start and that dot is itself a dot. -/
def splitextStem (p : String) : String :=
  let l := p.toList
  let s0 : Nat := match rfindIdx '/' l with | none => 0 | some s => s + 1
  match rfindIdx '.' l with
  | none => p
  | some d =>
    if s0 ≤ d ∧ ((l.drop s0).take (d - s0)).any (· != '.') = true then
      String.mk (l.take d)
    else p

/-- Observable action of the html_to_png orchestrator. -/
inductive OrchEvent
  | wroteTempHtml (path : String)
  | renderAttempt (a : Attempt)
  | removedTempHtml (path : String)
  deriving DecidableEq

/-- html_to_png (src/app.py:384-433): raise ValueError when neither source
argument is given; write the content (when given) to
output/temp_<timestamp>.html and render from it; derive the PNG path from
the HTML path when absent; call convert_html_to_png; delete the temp file
(best effort) only after a successful conversion; return the flag and the
PNG path, which the source always returns as a set value. Directory
creation is not modelled. -/
def html_to_png (env : RenderEnv) (ts : String)
    (html_content : Option (List Char))
    (html_file_path png_file_path : Option String) :
    Except String ((Bool × Option String) × List OrchEvent) :=
  match html_content, html_file_path with
  | none, none =>
    Except.error "ValueError: must supply html_content or html_file_path"
  | some _, _ =>
    let tf := "output/temp_" ++ ts ++ ".html"
    let png : String :=
      match png_file_path with
      | some pp => pp
      | none => splitextStem tf ++ ".png"
    let res := convert_html_to_png env
    Except.ok ((res.1, some png),
      [OrchEvent.wroteTempHtml tf] ++ res.2.map OrchEvent.renderAttempt ++
      (if res.1 then [OrchEvent.removedTempHtml tf] else []))
  | none, some p =>
    let png : String :=
      match png_file_path with
      | some pp => pp
      | none => splitextStem p ++ ".png"
    let res := convert_html_to_png env
    Except.ok ((res.1, some png), res.2.map OrchEvent.renderAttempt)

/-- Observable action of the service-client converter in helpers.py: one
POST with the request payload built at src/app/utils/helpers.py:98-105
(absolute paths for the file arguments). -/
inductive HelperEvent
  | httpPost (url : String) (content : Option (List Char))
      (htmlPath pngPath : Option String)
  deriving DecidableEq

/-- Behaviour of the HTML-to-image HTTP service for one request, as the
client code observes it. -/
structure ServiceEnv where
  raised : Bool
  statusOk : Bool
  svcSuccess : Bool
  imagePath : Option String
  deriving DecidableEq

/-- convert_html_to_image of src/app/utils/helpers.py:79-149: return
(False, None) at once when neither content nor path is given (no request is
sent); otherwise post to the path endpoint when a file path is given, else
to the content endpoint, and translate the response, making a relative
returned image path absolute. Every exception is caught and yields
(False, None). -/
def helpers_convert_html_to_image (svc : ServiceEnv) (serviceUrl cwd : String)
    (html_content : Option (List Char))
    (html_file_path png_file_path : Option String) :
    (Bool × Option String) × List HelperEvent :=
  match html_content, html_file_path with
  | none, none => ((false, none), [])
  | hc, hfp =>
    let url := serviceUrl ++
      (match hfp with | some _ => "/convert/path" | none => "/convert")
    let events := [HelperEvent.httpPost url hc (hfp.map (abspath cwd))
      (png_file_path.map (abspath cwd))]
    if svc.raised then ((false, none), events)
    else if svc.statusOk then
      if svc.svcSuccess then
        match svc.imagePath with
        | some pp => ((true, some (abspath cwd pp)), events)
        | none => ((true, none), events)
      else ((false, none), events)
    else ((false, none), events)

/-- Environment of one convert_html_string call: whether the temp-file
write succeeds, the converter-core environment, and whether the best-effort
os.remove succeeds. -/
structure ConvStrEnv where
  writeOk : Bool
  pw : PwEnv
  removeOk : Bool
  deriving DecidableEq

/-- Observable action of convert_html_string. -/
inductive ConvStrEvent
  | wroteTempHtml (path : String)
  | renderCall (htmlPath imgPath : String)
  | removeTempAttempt (path : String)
  deriving DecidableEq

/-- Result of convert_html_string together with the final state of the
temporary HTML file on disk. -/
structure ConvStrResult where
  success : Bool
  image_path : Option String
  events : List ConvStrEvent
  tempHtmlSurvives : Bool
  deriving DecidableEq

/-- HtmlToImageConverter.convert_html_string (src/html_to_image.py:60-111):
write the content to html_dir/temp_<timestamp>.html (a write failure
returns (False, None) with no file created), derive the image name
(auto-generated, or the given name with a case-insensitive .png suffix
check), convert, and then — whatever the conversion returned — when
delete_html is set and the temp file exists, attempt to remove it, a
failure of the removal being logged only. -/
def convert_html_string (env : ConvStrEnv) (html_dir image_dir cwd ts : String)
    (html_content : List Char) (image_name : Option (List Char))
    (delete_html : Bool) (opts : RenderOptions) : ConvStrResult :=
  let temp_html_path := html_dir ++ "/temp_" ++ ts ++ ".html"
  let imgName : List Char :=
    match image_name with
    | none => ("image_" ++ ts ++ ".png").toList
    | some n =>
      if (lowerL ".png".toList).isSuffixOf (lowerL n) then n
      else n ++ ".png".toList
  let img_path := image_dir ++ "/" ++ String.mk imgName
  if env.writeOk = false then
    { success := false, image_path := none, events := [],
      tempHtmlSurvives := false }
  else
    let conv := convert_html_to_image_sync env.pw cwd html_content
      temp_html_path img_path opts
    let events := [ConvStrEvent.wroteTempHtml temp_html_path,
                   ConvStrEvent.renderCall temp_html_path img_path] ++
      (if delete_html then [ConvStrEvent.removeTempAttempt temp_html_path]
       else [])
    { success := conv.1.1, image_path := conv.1.2, events := events,
      tempHtmlSurvives := !(delete_html && env.removeOk) }

/-- Lower-casing commutes with dropping a prefix. -/
theorem lowerL_drop (l : List Char) (n : Nat) :
    lowerL (l.drop n) = (lowerL l).drop n := List.map_drop _ _ _

/-- Lower-casing commutes with taking a prefix. -/
theorem lowerL_take (l : List Char) (n : Nat) :
    lowerL (l.take n) = (lowerL l).take n := List.map_take _ _ _

/-- Lower-casing distributes over append. -/
theorem lowerL_append (l m : List Char) :
    lowerL (l ++ m) = lowerL l ++ lowerL m := List.map_append _ _ _

/-- When findSub reports index i, the pattern occurs there. -/
theorem findSub_prefix {pat s : List Char} {i : Nat}
    (h : findSub pat s = some i) : pat <+: s.drop i := by
  induction s generalizing i with
  | nil =>
    simp only [findSub] at h
    split at h
    · next hcond => cases h; simpa using hcond
    · simp at h
  | cons c rest ih =>
    simp only [findSub] at h
    split at h
    · next hcond => cases h; simpa using hcond
    · next =>
      obtain ⟨j, hj, rfl⟩ := Option.map_eq_some'.mp h
      simpa using ih hj

/-- When findSub reports index i, the pattern occurs nowhere earlier:
findSub is the leftmost occurrence, as re.search is. -/
theorem findSub_first {pat s : List Char} {i : Nat}
    (h : findSub pat s = some i) : ∀ j, j < i → ¬ pat <+: s.drop j := by
  induction s generalizing i with
  | nil =>
    simp only [findSub] at h
    split at h
    · cases h; intro j hj; exact absurd hj (by omega)
    · simp at h
  | cons c rest ih =>
    simp only [findSub] at h
    split at h
    · cases h; intro j hj; exact absurd hj (by omega)
    · next hcond =>
      obtain ⟨m, hm, rfl⟩ := Option.map_eq_some'.mp h
      intro j hj
      cases j with
      | zero => simpa using hcond
      | succ j2 => exact ih hm j2 (by omega)

/-- C4: an input containing a doctype document block (first case-insensitive
doctype occurrence at i, first closing html tag k characters after its end)
makes extract_html_from_response return exactly that block: the returned
value is the contiguous substring of the input from i of length 15 + k + 7,
byte-for-byte (second conjunct decomposes the input around it, so nothing
is altered and the lower-priority heuristics contribute nothing); the block
starts with the doctype literal, no earlier position carries one, and it
ends with the closing tag. -/
theorem extract_full_document (s : List Char) (i k : Nat)
    (h1 : findCI docPat s = some i)
    (h2 : findCI htmlClosePat (s.drop (i + 15)) = some k) :
    extract_html_from_response s = some ((s.drop i).take (15 + k + 7)) ∧
    s = s.take i ++
      ((s.drop i).take (15 + k + 7) ++ s.drop (i + (15 + k + 7))) ∧
    lowerL docPat <+: lowerL (s.drop i) ∧
    (∀ j, j < i → ¬ lowerL docPat <+: lowerL (s.drop j)) ∧
    lowerL htmlClosePat <:+ lowerL ((s.drop i).take (15 + k + 7)) := by
  have hdl : docPat.length = 15 := rfl
  have hcl : htmlClosePat.length = 7 := rfl
  have hs : searchLazyCI docPat htmlClosePat s = some (i, 15 + k + 7) := by
    simp only [searchLazyCI, h1, hdl, hcl, h2]
  refine ⟨?_, ?_, ?_, ?_, ?_⟩
  · unfold extract_html_from_response
    rw [hs]
    rfl
  · have hsplit : s.drop i =
        (s.drop i).take (15 + k + 7) ++ s.drop (i + (15 + k + 7)) := by
      conv_lhs => rw [← List.take_append_drop (15 + k + 7) (s.drop i)]
      rw [List.drop_drop]
    conv_lhs => rw [← List.take_append_drop i s, hsplit]
  · have h3 := findSub_prefix h1
    rwa [← lowerL_drop] at h3
  · intro j hj hpre
    refine findSub_first h1 j hj ?_
    rwa [← lowerL_drop]
  · have hocc : lowerL htmlClosePat <+:
        lowerL ((s.drop i).drop (15 + k)) := by
      have h3 := findSub_prefix h2
      rw [← lowerL_drop, List.drop_drop] at h3
      rw [List.drop_drop]
      rwa [← Nat.add_assoc]
    have hdt : ((s.drop i).take (15 + k + 7)).drop (15 + k) =
        ((s.drop i).drop (15 + k)).take 7 := by
      rw [List.drop_take]
      congr 1
      omega
    have hlen7 : (lowerL htmlClosePat).length = 7 := rfl
    have heq : lowerL (((s.drop i).take (15 + k + 7)).drop (15 + k)) =
        lowerL htmlClosePat := by
      rw [hdt, lowerL_take, ← hlen7]
      exact (List.prefix_iff_eq_take.mp hocc).symm
    have htk : lowerL ((s.drop i).take (15 + k + 7)) =
        lowerL (((s.drop i).take (15 + k + 7)).take (15 + k)) ++
        lowerL (((s.drop i).take (15 + k + 7)).drop (15 + k)) := by
      rw [← lowerL_append, List.take_append_drop]
    rw [htk, heq]
    exact List.suffix_append _ _

/-- Witness for C4 at a concrete input whose doctype block is surrounded by
prose and uses mixed case. -/
theorem extract_full_document_witness :
    extract_html_from_response
        ("Report: <!doctype HTML><p>hi</p></HTML> done".toList) =
      some ("<!doctype HTML><p>hi</p></HTML>".toList) := by
  have h := extract_full_document
    ("Report: <!doctype HTML><p>hi</p></HTML> done".toList) 8 9
    (by decide) (by decide)
  rw [h.1]
  decide

/-- C5: an input with no doctype declaration anywhere but containing an
html fragment (first case-insensitive occurrence of the opening tag at i,
first closing tag k characters after its end) makes
extract_html_from_response return the doctype line followed by exactly that
fragment; the fragment is the contiguous substring of the input from i of
length 5 + k + 7 (second conjunct), so nothing in it is altered. -/
theorem extract_html_fragment (s : List Char) (i k : Nat)
    (hnd : findCI docPat s = none)
    (h1 : findCI htmlOpenPat s = some i)
    (h2 : findCI htmlClosePat (s.drop (i + 5)) = some k) :
    extract_html_from_response s =
      some (doctypeLine ++ (s.drop i).take (5 + k + 7)) ∧
    s = s.take i ++
      ((s.drop i).take (5 + k + 7) ++ s.drop (i + (5 + k + 7))) ∧
    lowerL htmlOpenPat <+: lowerL (s.drop i) ∧
    (∀ j, j < i → ¬ lowerL htmlOpenPat <+: lowerL (s.drop j)) := by
  have hol : htmlOpenPat.length = 5 := rfl
  have hcl : htmlClosePat.length = 7 := rfl
  have hs0 : searchLazyCI docPat htmlClosePat s = none := by
    simp only [searchLazyCI, hnd]
  have hs : searchLazyCI htmlOpenPat htmlClosePat s = some (i, 5 + k + 7) := by
    simp only [searchLazyCI, h1, hol, hcl, h2]
  refine ⟨?_, ?_, ?_, ?_⟩
  · unfold extract_html_from_response
    rw [hs0, hs]
    rfl
  · have hsplit : s.drop i =
        (s.drop i).take (5 + k + 7) ++ s.drop (i + (5 + k + 7)) := by
      conv_lhs => rw [← List.take_append_drop (5 + k + 7) (s.drop i)]
      rw [List.drop_drop]
    conv_lhs => rw [← List.take_append_drop i s, hsplit]
  · have h3 := findSub_prefix h1
    rwa [← lowerL_drop] at h3
  · intro j hj hpre
    refine findSub_first h1 j hj ?_
    rwa [← lowerL_drop]

/-- Witness for C5 at a concrete input containing only an html fragment. -/
theorem extract_html_fragment_witness :
    extract_html_from_response ("see <HTML>x</html>!".toList) =
      some ("<!DOCTYPE html>\n<HTML>x</html>".toList) := by
  have h := extract_html_fragment ("see <HTML>x</html>!".toList) 4 2
    (by decide) (by decide) (by decide)
  rw [h.1]
  decide

/-- C6: an input with neither a doctype declaration nor an html opening tag
but containing a body fragment makes extract_html_from_response return the
fixed document shell around exactly that fragment; the shell before the
fragment carries the UTF-8 charset meta tag and the fixed title, and the
fragment is the contiguous substring of the input from i of length
5 + k + 7 (second conjunct), verbatim. -/
theorem extract_body_fragment (s : List Char) (i k : Nat)
    (hnd : findCI docPat s = none)
    (hnh : findCI htmlOpenPat s = none)
    (h1 : findCI bodyOpenPat s = some i)
    (h2 : findCI bodyClosePat (s.drop (i + 5)) = some k) :
    extract_html_from_response s =
      some (bodyShellPre ++ (s.drop i).take (5 + k + 7) ++ bodyShellPost) ∧
    s = s.take i ++
      ((s.drop i).take (5 + k + 7) ++ s.drop (i + (5 + k + 7))) ∧
    lowerL bodyOpenPat <+: lowerL (s.drop i) ∧
    ("<meta charset=\"UTF-8\">".toList <:+: bodyShellPre) ∧
    ("<title>群聊日报</title>".toList <:+: bodyShellPre) := by
  have hbl : bodyOpenPat.length = 5 := rfl
  have hbc : bodyClosePat.length = 7 := rfl
  have hs0 : searchLazyCI docPat htmlClosePat s = none := by
    simp only [searchLazyCI, hnd]
  have hs1 : searchLazyCI htmlOpenPat htmlClosePat s = none := by
    simp only [searchLazyCI, hnh]
  have hs : searchLazyCI bodyOpenPat bodyClosePat s = some (i, 5 + k + 7) := by
    simp only [searchLazyCI, h1, hbl, hbc, h2]
  refine ⟨?_, ?_, ?_, ?_, ?_⟩
  · unfold extract_html_from_response
    rw [hs0, hs1, hs]
    rfl
  · have hsplit : s.drop i =
        (s.drop i).take (5 + k + 7) ++ s.drop (i + (5 + k + 7)) := by
      conv_lhs => rw [← List.take_append_drop (5 + k + 7) (s.drop i)]
      rw [List.drop_drop]
    conv_lhs => rw [← List.take_append_drop i s, hsplit]
  · have h3 := findSub_prefix h1
    rwa [← lowerL_drop] at h3
  · decide
  · decide

/-- Witness for C6 at a concrete input containing only a body fragment. -/
theorem extract_body_fragment_witness :
    extract_html_from_response ("pre <Body a=1>b</BODY> post".toList) =
      some (bodyShellPre ++ "<Body a=1>b</BODY>".toList ++ bodyShellPost) := by
  have h := extract_body_fragment ("pre <Body a=1>b</BODY> post".toList) 4 6
    (by decide) (by decide) (by decide) (by decide)
  rw [h.1]
  decide

/-- C7: when none of the three patterns matches (each tier search is
`none`) extract_html_from_response returns `none`; being a total Lean
function over every input string, the extraction cannot fail in any other
way, matching the no-exception contract. -/
theorem extract_no_match (s : List Char)
    (h1 : searchLazyCI docPat htmlClosePat s = none)
    (h2 : searchLazyCI htmlOpenPat htmlClosePat s = none)
    (h3 : searchLazyCI bodyOpenPat bodyClosePat s = none) :
    extract_html_from_response s = none := by
  unfold extract_html_from_response
  rw [h1, h2, h3]

/-- Witness for C7 at the empty input. -/
theorem extract_no_match_witness :
    extract_html_from_response ([] : List Char) = none :=
  extract_no_match [] (by decide) (by decide) (by decide)

/-- The source PATH stage equals the amended-claim PATH stage. -/
theorem pathStage_eq_amendedPath (pc pm : Outcome) (t : List Attempt) :
    pathStage pc pm t = amendedPath pc pm t := by
  cases pc <;> cases pm <;> simp [pathStage, amendedPath, amendedStep]

/-- The source discovered-browser stage equals the amended-claim stage. -/
theorem instStage_eq_amendedInst (fd : FoundBrowser) (ic ie1 ie2 pc pm : Outcome)
    (t : List Attempt) :
    instStage fd ic ie1 ie2 pc pm t = amendedInst fd ic ie1 ie2 pc pm t := by
  cases fd <;> cases ic <;> cases ie1 <;> cases ie2 <;>
    simp [instStage, amendedInst, amendedStep, pathStage_eq_amendedPath]

/-- C1 counterexample: with no discovered browser, the first backends
unavailable, a PATH chrome run that exits zero without producing the file,
and a PATH msedge that would produce it, the claimed fixed order reaches
msedge and succeeds, while the source skips msedge (it sits inside the
except-handler of the chrome attempt, src/app.py:343-360), opens the
default browser and fails; so the claimed order is not the code order. -/
theorem claim_backend_order_counterexample :
    claimC1Render envC1 =
      (true, [.playwrightShot, .wkhtmltoimageRun, .pathChromeShotEq,
              .pathMsedgeShotEq]) ∧
    convert_html_to_png envC1 =
      (false, [.playwrightShot, .wkhtmltoimageRun, .pathChromeShotEq,
               .openDefaultBrowser]) ∧
    decide (claimC1Render envC1 = convert_html_to_png envC1) = false := by
  decide

/-- C1 amended: for every environment the selector behaves as the amended
fixed order (playwright, wkhtmltoimage, discovered browser, PATH chrome,
PATH msedge only after a caught chrome exception, default-browser fallback;
success exactly on a file-producing attempt, uncaught exception classes
aborting). Moreover the discovered-Edge retry command uses exactly the
chrome single-token syntax, the first Edge form has six tokens against five
for chrome (the screenshot path being a separate token), and the two PATH
commands differ only in the command name, both using the single-token
form. -/
theorem convert_backend_order_amended :
    (∀ env : RenderEnv, convert_html_to_png env = amendedC1Render env) ∧
    edge_cmd2 = chrome_cmd ∧
    (∀ b p u : String,
      (edge_cmd b p u).length = 6 ∧ (chrome_cmd b p u).length = 5) ∧
    (∀ p u : String,
      (path_msedge_cmd p u).tail = (path_chrome_cmd p u).tail) := by
  refine ⟨?_, rfl, fun b p u => ⟨rfl, rfl⟩, fun p u => rfl⟩
  rintro ⟨pw, wk, ic, ie1, ie2, pc, pm, fd⟩
  cases pw <;> cases wk <;>
    simp [convert_html_to_png, amendedC1Render, claimStep, amendedStep,
      instStage_eq_amendedInst]

/-- PATH stage: when nothing earlier produced the file, the stage succeeds
exactly when one of its own attempts produced it. -/
theorem pathStage_produced (f : Attempt → Outcome) (t : List Attempt)
    (hopen : f .openDefaultBrowser = .ranNoFile)
    (h : producedIn f t = false) :
    ((pathStage (f .pathChromeShotEq) (f .pathMsedgeShotEq) t).1 = true ↔
      producedIn f
        (pathStage (f .pathChromeShotEq) (f .pathMsedgeShotEq) t).2 = true) := by
  have h2 : ∀ x ∈ t, ¬ f x = Outcome.ranFile := by simpa [producedIn] using h
  cases hpc : f .pathChromeShotEq <;> cases hpm : f .pathMsedgeShotEq <;>
    (simp [pathStage, producedIn, h2, hpc, hpm, hopen]
     try exact h2)

/-- Discovered-browser stage: same produced-file characterisation. -/
theorem instStage_produced (f : Attempt → Outcome) (fd : FoundBrowser)
    (t : List Attempt) (hopen : f .openDefaultBrowser = .ranNoFile)
    (h : producedIn f t = false) :
    ((instStage fd (f .instChromeShotEq) (f .instEdgeShotTwoTok)
        (f .instEdgeShotEq) (f .pathChromeShotEq) (f .pathMsedgeShotEq) t).1 =
        true ↔
      producedIn f
        (instStage fd (f .instChromeShotEq) (f .instEdgeShotTwoTok)
          (f .instEdgeShotEq) (f .pathChromeShotEq)
          (f .pathMsedgeShotEq) t).2 = true) := by
  have h2 : ∀ x ∈ t, ¬ f x = Outcome.ranFile := by simpa [producedIn] using h
  cases fd <;> cases hic : f .instChromeShotEq <;>
    cases hie1 : f .instEdgeShotTwoTok <;> cases hie2 : f .instEdgeShotEq <;>
    (simp only [instStage]
     first
      | exact pathStage_produced f _ hopen (by
          simp [producedIn, hic, hie1, hie2]
          try exact h2)
      | (simp [producedIn, h2, hic, hie1, hie2]
         try exact h2))

/-- The selector reports success exactly when some attempt of its trace
produced the destination file. -/
theorem convert_success_iff_produced (env : RenderEnv) :
    ((convert_html_to_png env).1 = true ↔
      producedFile env (convert_html_to_png env).2 = true) := by
  cases hpw : env.playwright <;> cases hwk : env.wkhtml <;>
    (simp only [convert_html_to_png, producedFile, hpw, hwk]
     first
      | exact instStage_produced (attemptOutcome env) env.found _ rfl
          (by simp [producedIn, attemptOutcome, hpw, hwk])
      | simp [producedIn, attemptOutcome, hpw, hwk])

/-- PATH stage: without uncaught exception classes, failure is reported
exactly when the trace ends with the default-browser fallback. -/
theorem pathStage_last (pc pm : Outcome) (t : List Attempt)
    (hpc : pc ≠ .raisedOther) (hpm : pm ≠ .raisedOther) :
    ((pathStage pc pm t).1 = false ↔
      (pathStage pc pm t).2.getLast? = some .openDefaultBrowser) := by
  cases pc <;> cases pm <;>
    simp_all [pathStage, List.getLast?_append_cons]

/-- Discovered-browser stage: same terminal-fallback characterisation. -/
theorem instStage_last (fd : FoundBrowser) (ic ie1 ie2 pc pm : Outcome)
    (t : List Attempt) (hic : ic ≠ .raisedOther) (hie1 : ie1 ≠ .raisedOther)
    (hie2 : ie2 ≠ .raisedOther) (hpc : pc ≠ .raisedOther)
    (hpm : pm ≠ .raisedOther) :
    ((instStage fd ic ie1 ie2 pc pm t).1 = false ↔
      (instStage fd ic ie1 ie2 pc pm t).2.getLast? =
        some .openDefaultBrowser) := by
  cases fd <;> cases ic <;> cases ie1 <;> cases ie2 <;>
    first
      | exact absurd rfl hic
      | exact absurd rfl hie1
      | exact absurd rfl hie2
      | (simp only [instStage]
         first
          | exact pathStage_last pc pm _ hpc hpm
          | simp [List.getLast?_append_cons])

/-- The selector, without uncaught exception classes, fails exactly when
its last action was opening the default browser. -/
theorem convert_fail_last (env : RenderEnv) (h : noUncaught env) :
    ((convert_html_to_png env).1 = false ↔
      (convert_html_to_png env).2.getLast? = some .openDefaultBrowser) := by
  obtain ⟨h1, h2, h3, h4, h5, h6⟩ := h
  cases hpw : env.playwright <;> cases hwk : env.wkhtml <;>
    first
      | exact absurd hwk h1
      | (simp only [convert_html_to_png, hpw, hwk]
         first
          | exact instStage_last env.found env.instChrome env.instEdge1
              env.instEdge2 env.pathChrome env.pathMsedge _ h2 h3 h4 h5 h6
          | simp)

/-- C2 counterexample: a wkhtmltoimage run that raises an exception class
outside (SubprocessError, FileNotFoundError) — PermissionError, say — hits
only the outer handler of convert_html_to_png, which returns failure at
once: the discovered chrome (which here would have produced the file) is
never tried, and the manual default-browser fallback never runs, against
the claimed isolation of backend failures. -/
theorem convert_uncaught_abort_counterexample :
    convert_html_to_png envC2 = (false, [.playwrightShot, .wkhtmltoimageRun]) ∧
    producedFile envC2 (convert_html_to_png envC2).2 = false ∧
    decide (Attempt.openDefaultBrowser ∈ (convert_html_to_png envC2).2) =
      false ∧
    envC2.instChrome = .ranFile := by
  decide

/-- C2 amended: failures of the caught exception classes are isolated and
only exhaustion surfaces as failure — for every environment, success holds
exactly when some attempted backend produced the destination file, and
when no backend raises an exception class outside the per-backend handlers,
failure holds exactly when the last action was the terminal default-browser
fallback (so the fallback always reports failure); an uncaught class
instead aborts the cascade, as the counterexample shows. -/
theorem convert_isolation_amended (env : RenderEnv) :
    ((convert_html_to_png env).1 = true ↔
      producedFile env (convert_html_to_png env).2 = true) ∧
    (noUncaught env →
      (((convert_html_to_png env).1 = false) ↔
        (convert_html_to_png env).2.getLast? = some .openDefaultBrowser)) :=
  ⟨convert_success_iff_produced env, fun h => convert_fail_last env h⟩

/-- Witness for C2 at the all-backends-fail environment. -/
theorem convert_isolation_amended_witness :
    (((convert_html_to_png envAllFail).1 = true) ↔
      producedFile envAllFail (convert_html_to_png envAllFail).2 = true) ∧
    (((convert_html_to_png envAllFail).1 = false) ↔
      (convert_html_to_png envAllFail).2.getLast? =
        some .openDefaultBrowser) :=
  ⟨(convert_isolation_amended envAllFail).1,
   (convert_isolation_amended envAllFail).2 (by decide)⟩

/-- A successful blocking conversion returns the absolute image path and
happened exactly when the final existence check saw the file. -/
theorem convert_html_to_image_sync_success {env : PwEnv} {cwd : String}
    {hc : List Char} {hp ip : String} {opts : RenderOptions}
    (h : (convert_html_to_image_sync env cwd hc hp ip opts).1.1 = true) :
    (convert_html_to_image_sync env cwd hc hp ip opts).1.2 =
      some (abspath cwd ip) ∧ env.produced = true := by
  rcases env with ⟨inst, gp, lr, pr⟩
  cases inst <;> cases lr <;> cases pr <;>
    simp_all [convert_html_to_image_sync]

/-- A failed blocking conversion returns no image path. -/
theorem convert_html_to_image_sync_fail {env : PwEnv} {cwd : String}
    {hc : List Char} {hp ip : String} {opts : RenderOptions}
    (h : (convert_html_to_image_sync env cwd hc hp ip opts).1.1 = false) :
    (convert_html_to_image_sync env cwd hc hp ip opts).1.2 = none := by
  rcases env with ⟨inst, gp, lr, pr⟩
  cases inst <;> cases lr <;> cases pr <;>
    simp_all [convert_html_to_image_sync]

/-- C3 counterexample: when every backend fails, html_to_png still returns
the derived PNG path next to the false flag (src/app.py:433 returns
png_file_path unconditionally), so the claimed invariant that a false
success flag comes with an unset output path fails for html_to_png. -/
theorem html_to_png_path_set_on_failure :
    (html_to_png envAllFail "20240101_000000" none
        (some "report.html") none).toOption =
      some ((false, some "report.png"),
        [.renderAttempt .playwrightShot, .renderAttempt .wkhtmltoimageRun,
         .renderAttempt .pathChromeShotEq, .renderAttempt .pathMsedgeShotEq,
         .renderAttempt .openDefaultBrowser]) ∧
    decide ((some "report.png" : Option String) = none) = false := by
  exact ⟨by decide, rfl⟩

/-- C3 amended: the RenderResult invariant holds in full for the blocking
converter core and its async variant (success implies the output path is
set to the absolute image path and the final existence check saw the file;
failure implies the path is unset); html_to_png keeps only the success half
— a true flag comes from a file-producing backend attempt — while its
returned path is always set, even on failure. -/
theorem render_result_invariant_amended :
    (∀ (env : PwEnv) (cwd : String) (hc : List Char) (hp ip : String)
        (opts : RenderOptions),
      ((convert_html_to_image_sync env cwd hc hp ip opts).1.1 = true →
        (convert_html_to_image_sync env cwd hc hp ip opts).1.2 =
          some (abspath cwd ip) ∧ env.produced = true) ∧
      ((convert_html_to_image_sync env cwd hc hp ip opts).1.1 = false →
        (convert_html_to_image_sync env cwd hc hp ip opts).1.2 = none)) ∧
    (∀ (env : PwEnv) (cwd : String) (hc : List Char) (hp ip : String)
        (opts : RenderOptions),
      ((convert_html_to_image_async env cwd hc hp ip opts).1.1 = true →
        (convert_html_to_image_async env cwd hc hp ip opts).1.2 =
          some (abspath cwd ip) ∧ env.produced = true) ∧
      ((convert_html_to_image_async env cwd hc hp ip opts).1.1 = false →
        (convert_html_to_image_async env cwd hc hp ip opts).1.2 = none)) ∧
    (∀ (env : RenderEnv) (ts : String) (hc : Option (List Char))
        (hfp pfp : Option String) (r : (Bool × Option String) × List OrchEvent),
      html_to_png env ts hc hfp pfp = Except.ok r →
      r.1.2.isSome = true ∧
      (r.1.1 = true →
        producedFile env (convert_html_to_png env).2 = true)) := by
  refine ⟨?_, ?_, ?_⟩
  · intro env cwd hc hp ip opts
    exact ⟨fun h => convert_html_to_image_sync_success h,
           fun h => convert_html_to_image_sync_fail h⟩
  · intro env cwd hc hp ip opts
    have e : convert_html_to_image_async env cwd hc hp ip opts =
        convert_html_to_image_sync env cwd hc hp ip opts := rfl
    rw [e]
    exact ⟨fun h => convert_html_to_image_sync_success h,
           fun h => convert_html_to_image_sync_fail h⟩
  · intro env ts hc hfp pfp r h
    match hc, hfp with
    | some c, hfp =>
      simp only [html_to_png, Except.ok.injEq] at h
      subst h
      exact ⟨rfl, (convert_success_iff_produced env).mp⟩
    | none, some p =>
      simp only [html_to_png, Except.ok.injEq] at h
      subst h
      exact ⟨rfl, (convert_success_iff_produced env).mp⟩
    | none, none =>
      simp [html_to_png] at h

/-- Witness for C3: a successful blocking run returns the absolute path, a
failed async run returns no path, and the failed orchestrator call of the
counterexample still satisfies the amended conclusion. -/
theorem render_result_invariant_amended_witness :
    ((convert_html_to_image_sync ⟨true, .ok, false, true⟩ "/w" []
        "a.html" "img.png" {}).1.2 = some (abspath "/w" "img.png") ∧
      (true : Bool) = true) ∧
    (convert_html_to_image_async ⟨true, .ok, false, false⟩ "/w" []
        "a.html" "img.png" {}).1.2 = none ∧
    (((false, some "report.png") : Bool × Option String), 
      ([.renderAttempt .playwrightShot, .renderAttempt .wkhtmltoimageRun,
        .renderAttempt .pathChromeShotEq, .renderAttempt .pathMsedgeShotEq,
        .renderAttempt .openDefaultBrowser] : List OrchEvent)).1.2.isSome =
      true := by
  refine ⟨?_, ?_, ?_⟩
  · have h := (render_result_invariant_amended.1 ⟨true, .ok, false, true⟩
      "/w" [] "a.html" "img.png" {}).1 (by rfl)
    exact ⟨h.1, h.2⟩
  · exact (render_result_invariant_amended.2.1 ⟨true, .ok, false, false⟩
      "/w" [] "a.html" "img.png" {}).2 (by rfl)
  · exact (render_result_invariant_amended.2.2 envAllFail "20240101_000000"
      none (some "report.html") none _ (by rfl)).1

/-- C8: with neither content nor a source path, the orchestrator of
src/app.py raises ValueError at once (the error value carries no events:
nothing is written, no backend is attempted, no retry happens), and the
service-client convert_html_to_image of helpers.py returns (False, None)
with no HTTP request issued. -/
theorem invalid_argument_rejected :
    (∀ (env : RenderEnv) (ts : String) (pfp : Option String),
      html_to_png env ts none none pfp =
        Except.error "ValueError: must supply html_content or html_file_path") ∧
    (∀ (svc : ServiceEnv) (u cwd : String) (pfp : Option String),
      helpers_convert_html_to_image svc u cwd none none pfp =
        ((false, none), [])) :=
  ⟨fun _ _ _ => rfl, fun _ _ _ _ => rfl⟩

/-- C9: the blocking and async converter cores are extensionally equal:
for every environment, working directory, HTML content, paths and options
they perform the same steps with the same parameters and return the same
result — the two source bodies differ only in the await-based execution
model, which the embedding erases. -/
theorem convert_sync_async_equiv :
    ∀ (env : PwEnv) (cwd : String) (hc : List Char) (hp ip : String)
      (opts : RenderOptions),
      convert_html_to_image_sync env cwd hc hp ip opts =
        convert_html_to_image_async env cwd hc hp ip opts :=
  fun _ _ _ _ _ _ => rfl

/-- C10: convert_html_string with delete_html set, once the temp write
succeeded, always attempts the removal of temp_<timestamp>.html whatever
the conversion outcome; when the best-effort removal succeeds no HTML
artifact survives; and a failed conversion leaves the caller with a false
flag and no image path. -/
theorem convert_html_string_cleanup (env : ConvStrEnv)
    (hd imgd cwd ts : String) (content : List Char)
    (name : Option (List Char)) (opts : RenderOptions)
    (hw : env.writeOk = true) :
    (ConvStrEvent.removeTempAttempt (hd ++ "/temp_" ++ ts ++ ".html") ∈
      (convert_html_string env hd imgd cwd ts content name true opts).events) ∧
    (env.removeOk = true →
      (convert_html_string env hd imgd cwd ts content name true
        opts).tempHtmlSurvives = false) ∧
    ((convert_html_string env hd imgd cwd ts content name true
        opts).success = false →
      (convert_html_string env hd imgd cwd ts content name true
        opts).image_path = none) := by
  rcases env with ⟨w, pw, rm⟩
  simp only at hw
  subst hw
  refine ⟨?_, ?_, ?_⟩
  · simp [convert_html_string]
  · intro h
    simp only at h
    subst h
    simp [convert_html_string]
  · intro hfail
    simp only [convert_html_string] at hfail ⊢
    exact convert_html_to_image_sync_fail hfail

/-- Witness for C10: a write-succeeding, render-failing, remove-succeeding
run deletes the temp file and returns no image path. -/
theorem convert_html_string_cleanup_witness :
    (ConvStrEvent.removeTempAttempt
        ("output/html_files" ++ "/temp_" ++ "20240101_000000" ++ ".html") ∈
      (convert_html_string ⟨true, ⟨true, .ok, false, false⟩, true⟩
        "output/html_files" "output/images" "/w" "20240101_000000" [] none
        true {}).events) ∧
    (convert_html_string ⟨true, ⟨true, .ok, false, false⟩, true⟩
      "output/html_files" "output/images" "/w" "20240101_000000" [] none
      true {}).tempHtmlSurvives = false ∧
    (convert_html_string ⟨true, ⟨true, .ok, false, false⟩, true⟩
      "output/html_files" "output/images" "/w" "20240101_000000" [] none
      true {}).image_path = none := by
  have h := convert_html_string_cleanup ⟨true, ⟨true, .ok, false, false⟩, true⟩
    "output/html_files" "output/images" "/w" "20240101_000000" [] none {} rfl
  exact ⟨h.1, h.2.1 rfl, h.2.2 (by rfl)⟩
